import Mathlib

/-!
Verification of `main.py` (tali-calendar-reminder-bot).

Shallow embedding of the script's pure logic and of its effectful control
flow.  External library calls (the JSON parser, the Google credentials
loader, the token refresh, the client builder, the HTTP request) are
modelled as oracle inputs in an environment record; the script's own
control flow is embedded faithfully, statement by statement, with the
source line numbers noted in comments.  Side effects that matter to the
specification (the refresh network call, the calendar query, each webhook
request) are collected in an action trace; `print` logging is not part of
the trace, and no modelled operation writes to a file.
-/

/-! ### Phone extraction (`extract_phone_number`, main.py lines 78-82)

The Python code runs `re.search(r'(05\d-?\d{7})', text)`.  `re.search`
tries each start position from the left; at a given position the pattern
requires the literal characters `0`, `5`, one digit, then a greedy
optional hyphen, then seven digits.  Backtracking over `-?` is trivial
here: if the character after the third digit is a hyphen, the only way to
match is to consume it (retrying without consuming it would require the
hyphen itself to be a digit); otherwise the seven digits must follow
directly.  Python's `\d` is modelled as an ASCII decimal digit
(`Char.isDigit`); every string relevant to the claims is ASCII where
digits matter. -/

/-- The `\d{7}` tail of the pattern: succeeds iff the first seven
characters exist and are all digits, returning exactly those seven. -/
def digits7 (l : List Char) : Option (List Char) :=
  if (l.take 7).length = 7 ∧ (l.take 7).all Char.isDigit = true then
    some (l.take 7)
  else none

/-- Attempt to match `05\d-?\d{7}` at the head of `l`, returning the
matched characters (`match.group(1)`). -/
def matchPhoneAt (l : List Char) : Option (List Char) :=
  match l with
  | c0 :: c1 :: d :: rest =>
    if c0 = '0' ∧ c1 = '5' ∧ d.isDigit = true then
      if rest.head? = some '-' then
        (digits7 rest.tail).map fun ds => c0 :: c1 :: d :: '-' :: ds
      else
        (digits7 rest).map fun ds => c0 :: c1 :: d :: ds
    else none
  | _ => none

/-- `re.search`: try `matchPhoneAt` at each start position, leftmost
first. -/
def searchPhone : List Char → Option (List Char)
  | [] => none
  | c :: rest =>
    match matchPhoneAt (c :: rest) with
    | some m => some m
    | none => searchPhone rest

/-- main.py lines 78-82: `if not text: return None` (the empty string is
falsy), then `re.search`, returning `match.group(1)` or `None`. -/
def extract_phone_number (text : String) : Option String :=
  if text = "" then none
  else (searchPhone text.data).map String.mk

/-- The shape `05X-XXXXXXX` (hyphen optional) of a complete match:
`0`, `5`, a digit, then either a hyphen and seven digits or seven digits
directly. -/
def isPhoneMatch : List Char → Bool
  | c0 :: c1 :: d :: rest =>
    (c0 == '0') && (c1 == '5') && d.isDigit &&
      (if rest.head? = some '-' then
        (rest.tail.length == 7) && rest.tail.all Char.isDigit
      else
        (rest.length == 7) && rest.all Char.isDigit)
  | _ => false

/-! ### Time window (`get_tomorrow_range`, main.py lines 84-99)

A `datetime.date` is modelled by its year/month/day fields; the current
UTC instant is modelled as integer seconds since the Unix epoch (the
claims quantify over instants, and `datetime.now(timezone.utc)` at an
instant `t` has calendar date `dateOfDays (t / 86400)`).  Python's
`date + timedelta(days=1)` is proleptic-Gregorian calendar arithmetic,
embedded as `nextDay`; the date of an instant is obtained by iterating
`nextDay` from 1970-01-01.  `str(date)` (the f-string conversion on
lines 95-96) is zero-padded ISO `YYYY-MM-DD`. -/

structure Date where
  year : Nat
  month : Nat
  day : Nat
deriving DecidableEq

def isLeapYear (y : Nat) : Bool :=
  (y % 4 == 0 && y % 100 != 0) || y % 400 == 0

def daysInMonth (y m : Nat) : Nat :=
  if m = 2 then (if isLeapYear y then 29 else 28)
  else if m = 4 ∨ m = 6 ∨ m = 9 ∨ m = 11 then 30
  else 31

/-- `d + timedelta(days=1)` on a `datetime.date`. -/
def nextDay (d : Date) : Date :=
  if d.day < daysInMonth d.year d.month then ⟨d.year, d.month, d.day + 1⟩
  else if d.month < 12 then ⟨d.year, d.month + 1, 1⟩
  else ⟨d.year + 1, 1, 1⟩

/-- The Gregorian calendar date `n` days after the Unix epoch. -/
def dateOfDays (n : Nat) : Date :=
  nextDay^[n] ⟨1970, 1, 1⟩

/-- `n` printed with leading zeros to width `w` (Python `%0wd`). -/
def padNum (w n : Nat) : String :=
  String.mk (List.replicate (w - (toString n).length) '0') ++ toString n

/-- `str(d)` for a `datetime.date`: ISO `YYYY-MM-DD`. -/
def isoDate (d : Date) : String :=
  padNum 4 d.year ++ "-" ++ padNum 2 d.month ++ "-" ++ padNum 2 d.day

/-- main.py lines 84-99: `utc_now + timedelta(hours=2)` (line 89), its
calendar date (line 91), plus one day (line 92), then the two literal
`Z`-suffixed bound strings (lines 95-96). -/
def get_tomorrow_range (now : Nat) : String × String :=
  let israel_time := now + 2 * 3600
  let today_date := dateOfDays (israel_time / 86400)
  let tomorrow := nextDay today_date
  (isoDate tomorrow ++ "T00:00:00Z", isoDate tomorrow ++ "T23:59:59Z")

/-- The calendar date of an instant (seconds since epoch), as used by the
spec's phrase "the calendar date of (now + 2 hours)". -/
def calendarDateOf (t : Nat) : Date :=
  dateOfDays (t / 86400)

/-! ### Secret-file integrity check (`check_files_integrity`, lines 20-43)

`json.load` is an external library; its result on a file's bytes is an
oracle input: `none` models a `json.JSONDecodeError`, `some v` a
successful parse into the Python value `v`, of which only the
object/non-object distinction and an object's key list are observable
here.  A file is either missing or present with a byte size and a parse
outcome (the parse outcome of a 0-byte file is never consulted: line 32
returns first). -/

inductive Json
  | obj (keys : List String)
  | arr
  | str
  | num
  | boolean
  | null
deriving DecidableEq

inductive FileState
  | missing
  | present (size : Nat) (parse : Option Json)
deriving DecidableEq

inductive FileReport
  | missing
  | empty
  | invalidJson
  | valid (keys : List String)
deriving DecidableEq

/-- Loop body of `check_files_integrity` for one file (lines 26-43).
`.error ()` is the uncaught `AttributeError` raised by
`list(content.keys())` on line 40 when the parsed JSON value is not an
object (only `json.JSONDecodeError` is caught, line 41). -/
def checkFile (fs : FileState) : Except Unit FileReport :=
  match fs with
  | .missing => .ok .missing
  | .present size parse =>
    if size = 0 then .ok .empty
    else
      match parse with
      | none => .ok .invalidJson
      | some (.obj ks) => .ok (.valid ks)
      | some _ => .error ()

/-- `check_files_integrity` (lines 20-43): the two expected files,
`token.json` then `credentials.json`, processed in order; an uncaught
exception from the first aborts before the second.  The function reads
only; no file is written. -/
def check_files_integrity (token creds : FileState) :
    Except Unit (FileReport × FileReport) :=
  match checkFile token with
  | .error e => .error e
  | .ok r1 =>
    match checkFile creds with
    | .error e => .error e
    | .ok r2 => .ok (r1, r2)

/-- A file state that makes line 40 raise: present, non-empty, and
parsing to a non-object JSON value. -/
def mayRaise : FileState → Bool
  | .present (_ + 1) (some (.obj _)) => false
  | .present (_ + 1) (some _) => true
  | _ => false

/-! ### Calendar authentication (`get_calendar_service`, lines 45-76)

The Google libraries are oracles: `TokenLoad` is the outcome of
`Credentials.from_authorized_user_file` (lines 50-55), `refreshOk`
whether `creds.refresh(Request())` succeeds (line 61), `buildOk` whether
`build('calendar', 'v3', ...)` succeeds (line 71).  A loaded
`Credentials` object is always truthy; its `valid` and `expired` flags
are booleans and `refresh_token` is an optional string whose Python
truthiness makes the empty string count as absent. -/

structure PyCreds where
  valid : Bool
  expired : Bool
  refresh_token : Option String
deriving DecidableEq

inductive TokenLoad
  | noFile
  | loadError
  | loaded (c : PyCreds)
deriving DecidableEq

structure AuthEnv where
  load : TokenLoad
  refreshOk : Bool
  buildOk : Bool
deriving DecidableEq

/-- Python truthiness of an optional string: `None` and `""` are falsy. -/
def pyTruthy : Option String → Bool
  | none => false
  | some s => !(s == "")

/-- The externally visible actions of one run, in order. -/
inductive RunAction
  | fileCheck
  | refreshCall
  | calendarQuery (timeMin timeMax : String)
  | webhookCall (url phone msg : String) (raised : Bool)
deriving DecidableEq

/-- `get_calendar_service` (lines 45-76), returning the service handle
(if any) and the network actions it performed.  Control flow: a loaded
credentials object that is `valid` goes straight to `build` (line 57
guard false); otherwise, refresh is attempted only when credentials were
loaded, `expired` is true and `refresh_token` is truthy (line 58), with
a failed refresh returning `None` (line 65); all other invalid states
return `None` (line 68); a `build` failure returns `None` (line 76). -/
def get_calendar_service (a : AuthEnv) : Option Unit × List RunAction :=
  match a.load with
  | .loaded c =>
    if c.valid then
      if a.buildOk then (some (), []) else (none, [])
    else if c.expired && pyTruthy c.refresh_token then
      if a.refreshOk then
        if a.buildOk then (some (), [.refreshCall]) else (none, [.refreshCall])
      else (none, [.refreshCall])
    else (none, [])
  | _ => (none, [])

/-! ### Events and the main loop (`main`, lines 101-166) -/

/-- A calendar event as consumed by the loop: the four fields read via
`event.get(...)` on lines 132-134 and 138. -/
structure Event where
  summary : Option String
  description : Option String
  colorId : Option String
  startDateTime : Option String
deriving DecidableEq

/-- Lines 140-141: `datetime.fromisoformat(raw).strftime('%H:%M')`.  For
the canonical RFC 3339 strings the Calendar API returns
(`YYYY-MM-DDTHH:MM:SS…`), this is the five characters at offset 11. -/
def formatHM (raw : String) : String :=
  String.mk ((raw.data.drop 11).take 5)

/-- `TARGET_COLOR_ID` (line 17). -/
def TARGET_COLOR_ID : String := "1"

/-- Line 146: `if color_id and color_id != TARGET_COLOR_ID: continue`.
Python truthiness: an absent (`None`) or empty-string `colorId` makes
the conjunction false, so the event is not skipped. -/
def colorSkip (c : Option String) : Bool :=
  pyTruthy c && !(c.getD "" == TARGET_COLOR_ID)

/-- Line 154: the f-string message with its two substitutions. -/
def message_text (summary formatted_time : String) : String :=
  "היי " ++ summary ++ ", תזכורת לתור שלך מחר בשעה " ++ formatted_time ++
    " לתספורת אצלי! נתראה :)"

/-- One iteration of the loop body (lines 131-161), minus the HTTP call
itself: `some (phone, msg)` when the event passes the color filter and
yields a phone number, i.e. when a webhook request is issued for it. -/
def eventNotification (e : Event) : Option (String × String) :=
  let summary := e.summary.getD "No Title"
  let description := e.description.getD ""
  let formatted_time :=
    match e.startDateTime with
    | some raw => formatHM raw
    | none => "במהלך היום"
  if colorSkip e.colorId then none
  else (extract_phone_number description).map fun phone =>
    (phone, message_text summary formatted_time)

/-- The loop over events (lines 131-161).  `raises i` tells whether the
`requests.get` for the `i`-th event raises a network error; either way
the request was issued and the `try/except` on lines 155-159 catches the
error and the loop continues with the next event. -/
def processEvents (url : String) (raises : Nat → Bool) :
    Nat → List Event → List RunAction
  | _, [] => []
  | i, e :: rest =>
    (match eventNotification e with
     | some pm => [RunAction.webhookCall url pm.1 pm.2 (raises i)]
     | none => []) ++ processEvents url raises (i + 1) rest

/-- Everything `main` consumes: the environment variable, the two secret
files, the auth oracles, the current instant, the events the calendar
query returns, and the webhook failure pattern. -/
structure Env where
  webhookUrl : Option String
  tokenFile : FileState
  credsFile : FileState
  auth : AuthEnv
  now : Nat
  events : List Event
  webhookRaises : Nat → Bool

/-- The action trace of `main` (lines 101-166).  Lines 104-106: a falsy
`WEBHOOK_URL` returns before anything else.  Line 109: the file check; if
`check_files_integrity` raises, the exception propagates to the top-level
handler (line 163) and the run ends.  Lines 111-114: an absent service
ends the run after auth's own actions.  Lines 116-122: the window is
computed and the calendar queried; lines 131-161 process each event. -/
def mainT (env : Env) : List RunAction :=
  if pyTruthy env.webhookUrl = false then []
  else
    match check_files_integrity env.tokenFile env.credsFile with
    | .error _ => [RunAction.fileCheck]
    | .ok _ =>
      match get_calendar_service env.auth with
      | (none, acts) => RunAction.fileCheck :: acts
      | (some _, acts) =>
        let r := get_tomorrow_range env.now
        (RunAction.fileCheck :: acts) ++
          ([RunAction.calendarQuery r.1 r.2] ++
            processEvents (env.webhookUrl.getD "") env.webhookRaises 0 env.events)

/-- The webhook requests issued in a trace: `(url, phone, msg)` triples,
in order, regardless of whether the request later raised. -/
def webhookAttempts (t : List RunAction) : List (String × String × String) :=
  t.filterMap fun a =>
    match a with
    | .webhookCall u p m _ => some (u, p, m)
    | _ => none

/-- The calendar queries issued in a trace. -/
def calendarQueries (t : List RunAction) : List (String × String) :=
  t.filterMap fun a =>
    match a with
    | .calendarQuery tmin tmax => some (tmin, tmax)
    | _ => none

/-- The number of token-refresh network calls in a trace. -/
def countRefresh (t : List RunAction) : Nat :=
  t.count RunAction.refreshCall

/-- Does the pattern `p` occur as a contiguous run inside `l`? -/
def listContainsAux (p : List Char) : List Char → Bool
  | [] => p.isEmpty
  | c :: rest => p.isPrefixOf (c :: rest) || listContainsAux p rest

/-- Python's `pat in s` on strings. -/
def strContains (s pat : String) : Bool :=
  listContainsAux pat.data s.data

/-- The color filter as the specification words it after amendment: skip
exactly the events whose marker value is present, non-empty, and
different from the target marker id. -/
def specSkipAmended (c : Option String) : Bool :=
  match c with
  | none => false
  | some s => !(s == "") && !(s == TARGET_COLOR_ID)

/-! ### Concrete runs used by the claims -/

def goodToken : FileState := .present 700 (some (.obj ["token", "refresh_token"]))

def goodCreds : FileState := .present 400 (some (.obj ["installed"]))

def okAuth : AuthEnv := ⟨.loaded ⟨true, false, none⟩, true, true⟩

/-- The single tomorrow event of the end-to-end scenario: marker `"1"`,
a description holding `052-7654321`, title `Dana`, start at local
`14:30`. -/
def danaEvent : Event :=
  ⟨some "Dana", some "לקוחה: 052-7654321", some "1", some "2026-10-13T14:30:00+03:00"⟩

/-- The message the run builds for `danaEvent` (line 154 with
`summary = "Dana"`, `formatted_time = "14:30"`). -/
def danaMsg : String :=
  "היי Dana, תזכורת לתור שלך מחר בשעה 14:30 לתספורת אצלי! נתראה :)"

def hookUrl : String := "https://trigger.example/wh"

def danaEnv : Env :=
  ⟨some hookUrl, goodToken, goodCreds, okAuth, 0, [danaEvent], fun _ => false⟩

/-- An event whose `colorId` is present but the empty string. -/
def emptyColorEvent : Event := ⟨some "X", some "052-1234567", some "", none⟩

/-- An event skipped by the color filter. -/
def skippedEvent : Event := ⟨some "Y", some "052-1234567", some "2", none⟩

/-- The end-to-end environment with the webhook variable absent. -/
def noUrlEnv : Env := { danaEnv with webhookUrl := none }

/-- Expired credentials with a refresh token, whose refresh fails. -/
def failAuth : AuthEnv := ⟨.loaded ⟨false, true, some "rtok"⟩, false, true⟩

/-- The end-to-end environment under `failAuth`. -/
def failEnv : Env := { danaEnv with auth := failAuth }

/-! ### Helper lemmas -/

theorem digits7_shape {l ds : List Char} (h : digits7 l = some ds) :
    ds.length = 7 ∧ ds.all Char.isDigit = true := by
  unfold digits7 at h
  split at h
  · cases h; assumption
  · cases h

theorem matchPhoneAt_shape {l m : List Char} (h : matchPhoneAt l = some m) :
    isPhoneMatch m = true := by
  cases l with
  | nil => simp [matchPhoneAt] at h
  | cons c0 t0 =>
  cases t0 with
  | nil => simp [matchPhoneAt] at h
  | cons c1 t1 =>
  cases t1 with
  | nil => simp [matchPhoneAt] at h
  | cons d rest =>
    simp only [matchPhoneAt] at h
    split at h
    · rename_i hc
      obtain ⟨hc0, hc1, hd⟩ := hc
      subst hc0; subst hc1
      split at h
      · rw [Option.map_eq_some'] at h
        obtain ⟨ds, hds, hm⟩ := h
        obtain ⟨hlen, hdig⟩ := digits7_shape hds
        subst hm
        simp [isPhoneMatch, hd, hlen, hdig]
      · rw [Option.map_eq_some'] at h
        obtain ⟨ds, hds, hm⟩ := h
        obtain ⟨hlen, hdig⟩ := digits7_shape hds
        subst hm
        cases ds with
        | nil => simp at hlen
        | cons e es =>
          have he : e.isDigit = true := by
            simp [List.all_cons] at hdig
            exact hdig.1
          have hne : ¬ (e = '-') := by
            intro he'
            subst he'
            simp [Char.isDigit] at he
          simp [isPhoneMatch, hd, hne, hlen, hdig]
    · cases h

theorem searchPhone_shape {l m : List Char} (h : searchPhone l = some m) :
    isPhoneMatch m = true := by
  induction l with
  | nil => simp [searchPhone] at h
  | cons c rest ih =>
    unfold searchPhone at h
    split at h
    · rename_i m' hm'
      cases h
      exact matchPhoneAt_shape hm'
    · exact ih h

/-- If any suffix of `l` matches at its head, `re.search` finds some
match (possibly an earlier one). -/
theorem searchPhone_isSome_of_suffix {pre suf m : List Char}
    (h : matchPhoneAt suf = some m) :
    (searchPhone (pre ++ suf)).isSome = true := by
  induction pre with
  | nil =>
    cases suf with
    | nil => simp [matchPhoneAt] at h
    | cons c rest =>
      simp only [List.nil_append]
      unfold searchPhone
      rw [h]
      rfl
  | cons c pre ih =>
    simp only [List.cons_append]
    unfold searchPhone
    split
    · rfl
    · exact ih

theorem digits7_append {ds : List Char} (post : List Char) (hlen : ds.length = 7)
    (hdig : ds.all Char.isDigit = true) :
    digits7 (ds ++ post) = some ds := by
  have htake : (ds ++ post).take 7 = ds := by
    rw [← hlen]
    exact List.take_left ds post
  unfold digits7
  rw [htake, if_pos ⟨hlen, hdig⟩]

theorem matchPhoneAt_parts_isSome {d : Char} {hy ds : List Char} (post : List Char)
    (hd : d.isDigit = true) (hhy : hy = [] ∨ hy = ['-'])
    (hlen : ds.length = 7) (hdig : ds.all Char.isDigit = true) :
    (matchPhoneAt ('0' :: '5' :: d :: (hy ++ (ds ++ post)))).isSome = true := by
  rcases hhy with h | h <;> subst h
  · cases ds with
    | nil => simp at hlen
    | cons e es =>
      have he : e.isDigit = true := by
        simp only [List.all_cons, Bool.and_eq_true] at hdig
        exact hdig.1
      have hne : ¬ ((e :: (es ++ post)).head? = some '-') := by
        simp only [List.head?_cons, Option.some.injEq]
        intro h'
        subst h'
        simp [Char.isDigit] at he
      simp only [List.nil_append, List.cons_append]
      simp only [matchPhoneAt]
      rw [if_pos ⟨trivial, trivial, hd⟩, if_neg hne]
      have hds := digits7_append post hlen hdig
      rw [List.cons_append] at hds
      rw [hds]
      rfl
  · simp only [List.cons_append, List.nil_append]
    simp only [matchPhoneAt]
    rw [if_pos ⟨trivial, trivial, hd⟩]
    simp only [List.head?_cons, List.tail_cons]
    simp only [if_true]
    rw [digits7_append post hlen hdig]
    rfl

theorem webhookAttempts_append (a b : List RunAction) :
    webhookAttempts (a ++ b) = webhookAttempts a ++ webhookAttempts b := by
  unfold webhookAttempts
  exact List.filterMap_append a b _

/-- The webhook requests the loop issues are a function of the url and
the event list alone: the failure pattern does not influence them. -/
theorem processEvents_attempts (url : String) (f : Nat → Bool) (es : List Event) :
    ∀ i, webhookAttempts (processEvents url f i es) =
      es.filterMap fun e => (eventNotification e).map fun pm => (url, pm.1, pm.2) := by
  induction es with
  | nil => intro i; rfl
  | cons e rest ih =>
    intro i
    unfold processEvents
    rw [webhookAttempts_append, ih (i + 1)]
    cases hn : eventNotification e <;>
      simp [hn, webhookAttempts, List.filterMap_cons]

/-- `get_calendar_service` performs at most the refresh network call. -/
theorem gcs_actions (a : AuthEnv) :
    (get_calendar_service a).2 = [] ∨
      (get_calendar_service a).2 = [RunAction.refreshCall] := by
  rcases a with ⟨load, r, b⟩
  cases load with
  | noFile => left; rfl
  | loadError => left; rfl
  | loaded c =>
    rcases c with ⟨v, e, rt⟩
    cases hrt : pyTruthy rt <;> cases v <;> cases e <;> cases r <;> cases b <;>
      simp [get_calendar_service, hrt]

/-- The webhook requests of a whole run, characterised without reference
to the failure pattern. -/
theorem mainT_attempts (env : Env) :
    webhookAttempts (mainT env) =
      (if pyTruthy env.webhookUrl = false then []
       else
         match check_files_integrity env.tokenFile env.credsFile with
         | .error _ => []
         | .ok _ =>
           match get_calendar_service env.auth with
           | (none, _) => []
           | (some _, _) =>
             env.events.filterMap fun e =>
               (eventNotification e).map fun pm =>
                 (env.webhookUrl.getD "", pm.1, pm.2)) := by
  unfold mainT
  by_cases hurl : pyTruthy env.webhookUrl = false
  · rw [if_pos hurl, if_pos hurl]
    rfl
  · rw [if_neg hurl, if_neg hurl]
    cases hc : check_files_integrity env.tokenFile env.credsFile with
    | error e => rfl
    | ok r =>
      cases hs : get_calendar_service env.auth with
      | mk o acts =>
        cases o with
        | none =>
          have h2 : acts = [] ∨ acts = [RunAction.refreshCall] := by
            have h3 := gcs_actions env.auth
            rw [hs] at h3
            exact h3
          rcases h2 with h2 | h2 <;> subst h2 <;> rfl
        | some u =>
          have h2 : acts = [] ∨ acts = [RunAction.refreshCall] := by
            have h3 := gcs_actions env.auth
            rw [hs] at h3
            exact h3
          rcases h2 with h2 | h2 <;> subst h2 <;>
            rw [webhookAttempts_append, webhookAttempts_append,
                processEvents_attempts] <;> rfl

/-- Full success characterisation of `get_calendar_service`: a handle is
returned exactly when the build succeeds on loaded credentials that are
either valid or expired-refreshable with a succeeding refresh. -/
theorem gcs_success_iff (a : AuthEnv) :
    (get_calendar_service a).1 = some () ↔
      a.buildOk = true ∧ ∃ c, a.load = .loaded c ∧
        (c.valid = true ∨ (c.expired = true ∧ pyTruthy c.refresh_token = true ∧
          a.refreshOk = true)) := by
  rcases a with ⟨load, r, b⟩
  cases load with
  | noFile => simp [get_calendar_service]
  | loadError => simp [get_calendar_service]
  | loaded c =>
    rcases c with ⟨v, e, rt⟩
    cases hrt : pyTruthy rt <;> cases v <;> cases e <;> cases r <;> cases b <;>
      simp [get_calendar_service, hrt]

/-- When authentication yields no service, the run issues no calendar
query and no webhook request. -/
theorem mainT_no_service (env : Env)
    (h : (get_calendar_service env.auth).1 = none) :
    calendarQueries (mainT env) = [] ∧ webhookAttempts (mainT env) = [] := by
  unfold mainT
  by_cases hurl : pyTruthy env.webhookUrl = false
  · rw [if_pos hurl]
    exact ⟨rfl, rfl⟩
  · rw [if_neg hurl]
    cases hc : check_files_integrity env.tokenFile env.credsFile with
    | error e => exact ⟨rfl, rfl⟩
    | ok r =>
      cases hs : get_calendar_service env.auth with
      | mk o acts =>
        cases o with
        | some u =>
          rw [hs] at h
          simp at h
        | none =>
          have h2 : acts = [] ∨ acts = [RunAction.refreshCall] := by
            have h3 := gcs_actions env.auth
            rw [hs] at h3
            exact h3
          rcases h2 with h2 | h2 <;> subst h2 <;> exact ⟨rfl, rfl⟩

theorem checkFile_ok_of_safe {fs : FileState} (h : mayRaise fs = false) :
    ∃ r, checkFile fs = .ok r := by
  cases fs with
  | missing => exact ⟨.missing, rfl⟩
  | present n p =>
    cases n with
    | zero => exact ⟨.empty, rfl⟩
    | succ n =>
      cases p with
      | none => exact ⟨.invalidJson, rfl⟩
      | some v =>
        cases v with
        | obj ks => exact ⟨.valid ks, rfl⟩
        | arr => simp [mayRaise] at h
        | str => simp [mayRaise] at h
        | num => simp [mayRaise] at h
        | boolean => simp [mayRaise] at h
        | null => simp [mayRaise] at h

/-! ### Claims -/

/-- C1: for a run whose calendar query returns exactly one event for
tomorrow with `colorId "1"`, a description containing `052-7654321`,
title `Dana`, and a start whose local time is `14:30`, `main` issues
exactly one webhook GET request, with the `phone` query parameter equal
to `"052-7654321"` and the `msg` query parameter containing both `"Dana"`
and `"14:30"`. -/
theorem end_to_end_dana :
    webhookAttempts (mainT danaEnv) = [(hookUrl, "052-7654321", danaMsg)] ∧
    strContains danaMsg "Dana" = true ∧
    strContains danaMsg "14:30" = true := by
  decide

/-- C2: `extract_phone_number` searches its argument for a 10-digit
mobile number of the form `05X-XXXXXXX` with the hyphen optional and
returns the first match (every returned match has that shape), and
returns no match when none is present; the four example inputs of the
spec evaluate as stated. -/
theorem extract_phone_spec :
    extract_phone_number "call 052-1234567 please" = some "052-1234567" ∧
    extract_phone_number "0521234567 thanks" = some "0521234567" ∧
    extract_phone_number "no number here" = none ∧
    extract_phone_number "052-123456" = none ∧
    ∀ (t m : String), extract_phone_number t = some m →
      isPhoneMatch m.data = true := by
  refine ⟨by decide, by decide, by decide, by decide, ?_⟩
  intro t m h
  unfold extract_phone_number at h
  split at h
  · cases h
  · rw [Option.map_eq_some'] at h
    obtain ⟨l, hl, hm⟩ := h
    subst hm
    exact searchPhone_shape hl

theorem extract_phone_spec_witness : isPhoneMatch "052-1234567".data = true :=
  extract_phone_spec.2.2.2.2 "call 052-1234567 please" "052-1234567" (by decide)

/-- C3 counterexample: an event whose `colorId` is present (`some ""`)
and different from the target `"1"` is nevertheless notified (not
skipped), because Python's truthiness test on line 146 treats the empty
string as absent.  This refutes "skips exactly those events whose marker
attribute is present and not equal to the target". -/
theorem color_filter_claim_cex :
    (eventNotification emptyColorEvent).isSome = true ∧
    emptyColorEvent.colorId.isSome = true ∧
    emptyColorEvent.colorId ≠ some TARGET_COLOR_ID := by
  decide

/-- C3 (amended): the color filter skips exactly those events whose
marker attribute is present, non-empty, and not equal to the target
marker id `"1"`; an event with `colorId "1"` passes, `colorId "2"` is
skipped, an absent `colorId` passes, and a skipped event produces no
notification. -/
theorem color_filter_amended (c : Option String) (e : Event)
    (h : colorSkip e.colorId = true) :
    colorSkip c = specSkipAmended c ∧
    colorSkip (some "1") = false ∧
    colorSkip (some "2") = true ∧
    colorSkip none = false ∧
    eventNotification e = none := by
  refine ⟨?_, by decide, by decide, by decide, ?_⟩
  · cases c with
    | none => rfl
    | some s => simp [colorSkip, specSkipAmended, pyTruthy]
  · simp [eventNotification, h]

theorem color_filter_amended_witness :
    colorSkip (some "2") = specSkipAmended (some "2") ∧
    colorSkip (some "1") = false ∧
    colorSkip (some "2") = true ∧
    colorSkip none = false ∧
    eventNotification skippedEvent = none :=
  color_filter_amended (some "2") skippedEvent (by decide)

/-- C4: `get_tomorrow_range` is a pure function of the current instant
(hence deterministic given it), and for every instant it returns the pair
`(D ++ "T00:00:00Z", D ++ "T23:59:59Z")` where `D` is the ISO form of
the calendar date of `now + 2` hours plus one day: the emitted bounds
carry the literal `Z` suffix and are not shifted back by the offset. -/
theorem tomorrow_range_spec (now : Nat) :
    get_tomorrow_range now =
      (isoDate (nextDay (calendarDateOf (now + 2 * 3600))) ++ "T00:00:00Z",
       isoDate (nextDay (calendarDateOf (now + 2 * 3600))) ++ "T23:59:59Z") :=
  rfl

/-- C5: expired loaded credentials with a present (truthy) refresh token
make `get_calendar_service` attempt exactly one refresh call; if the
refresh fails the function returns no service; with no service the run
performs no calendar query and sends no notifications; and the component
never partially succeeds: it returns a handle exactly when the whole
path (load, validity or refresh, build) succeeds, and `none` on every
failure path. -/
theorem auth_refresh_policy (env : Env) (c : PyCreds)
    (hload : env.auth.load = .loaded c) (hvalid : c.valid = false)
    (hexp : c.expired = true) (hrt : pyTruthy c.refresh_token = true) :
    countRefresh (get_calendar_service env.auth).2 = 1 ∧
    (env.auth.refreshOk = false → (get_calendar_service env.auth).1 = none) ∧
    ((get_calendar_service env.auth).1 = none →
      calendarQueries (mainT env) = [] ∧ webhookAttempts (mainT env) = []) ∧
    (∀ a : AuthEnv, (get_calendar_service a).1 = some () ↔
      a.buildOk = true ∧ ∃ c2, a.load = .loaded c2 ∧
        (c2.valid = true ∨ (c2.expired = true ∧ pyTruthy c2.refresh_token = true ∧
          a.refreshOk = true))) := by
  have hsvc : get_calendar_service env.auth =
      (if env.auth.refreshOk then
         (if env.auth.buildOk then (some (), [RunAction.refreshCall])
          else (none, [RunAction.refreshCall]))
       else (none, [RunAction.refreshCall])) := by
    unfold get_calendar_service
    rw [hload]
    simp [hvalid, hexp, hrt]
  refine ⟨?_, ?_, mainT_no_service env, gcs_success_iff⟩
  · rw [hsvc]
    by_cases hr : env.auth.refreshOk = true
    · rw [if_pos hr]
      by_cases hb : env.auth.buildOk = true
      · rw [if_pos hb]; decide
      · rw [if_neg hb]; decide
    · rw [if_neg hr]; decide
  · intro hrf
    rw [hsvc]
    simp [hrf]

theorem auth_refresh_policy_witness :
    countRefresh (get_calendar_service failEnv.auth).2 = 1 ∧
    (failEnv.auth.refreshOk = false → (get_calendar_service failEnv.auth).1 = none) ∧
    ((get_calendar_service failEnv.auth).1 = none →
      calendarQueries (mainT failEnv) = [] ∧ webhookAttempts (mainT failEnv) = []) ∧
    (∀ a : AuthEnv, (get_calendar_service a).1 = some () ↔
      a.buildOk = true ∧ ∃ c2, a.load = .loaded c2 ∧
        (c2.valid = true ∨ (c2.expired = true ∧ pyTruthy c2.refresh_token = true ∧
          a.refreshOk = true))) :=
  auth_refresh_policy failEnv ⟨false, true, some "rtok"⟩ rfl rfl rfl (by decide)

/-- C6: when the webhook URL environment variable is absent, `main`
returns immediately with an empty action trace: no file check, no
authentication, no calendar query and no webhook request. -/
theorem missing_webhook_aborts (env : Env) (h : env.webhookUrl = none) :
    mainT env = [] := by
  unfold mainT
  rw [h]
  rfl

theorem missing_webhook_aborts_witness : mainT noUrlEnv = [] :=
  missing_webhook_aborts noUrlEnv rfl

/-- C7: per-event notification failures are isolated: for every run
environment, replacing the webhook failure pattern by any other (in
particular one where some request raises a network error) leaves the
sequence of webhook requests issued — one per matching event — unchanged,
so one failed webhook call never prevents later notifications. -/
theorem webhook_failure_isolated (env : Env) (g : Nat → Bool) :
    webhookAttempts (mainT { env with webhookRaises := g }) =
      webhookAttempts (mainT env) := by
  rw [mainT_attempts, mainT_attempts]

/-- C8 counterexample: `check_files_integrity` raises (an uncaught
`AttributeError` from `list(content.keys())`, line 40) on a file whose
content is valid JSON but not an object — here a JSON array — and the
remaining file is not processed.  This refutes "never raises for any
file contents … valid JSON of any shape". -/
theorem integrity_raises_on_array :
    check_files_integrity (.present 6 (some .arr)) goodCreds = .error () ∧
    checkFile (.present 6 (some .arr)) = .error () :=
  ⟨rfl, rfl⟩

/-- C8 (amended): `check_files_integrity` never raises — and processing
reaches both files, each yielding a report — provided no file is
present, non-empty and parsed to a non-object JSON value; the check only
reads, never mutates, the files (the embedding is a pure function of the
file states). -/
theorem integrity_never_raises_amended (t c : FileState)
    (ht : mayRaise t = false) (hc : mayRaise c = false) :
    ∃ r1 r2, check_files_integrity t c = .ok (r1, r2) ∧
      checkFile t = .ok r1 ∧ checkFile c = .ok r2 := by
  obtain ⟨r1, h1⟩ := checkFile_ok_of_safe ht
  obtain ⟨r2, h2⟩ := checkFile_ok_of_safe hc
  refine ⟨r1, r2, ?_, h1, h2⟩
  simp [check_files_integrity, h1, h2]

theorem integrity_never_raises_amended_witness :
    ∃ r1 r2, check_files_integrity .missing (.present 10 none) = .ok (r1, r2) ∧
      checkFile .missing = .ok r1 ∧ checkFile (.present 10 none) = .ok r2 :=
  integrity_never_raises_amended .missing (.present 10 none) (by decide) (by decide)

/-- C9: for each expected secret file the integrity check reports exactly
one of the four outcomes: a missing file is reported missing, a zero-byte
file empty, unparsable content invalid JSON, and a well-formed JSON
object (in particular one with at least one key) valid together with its
key list. -/
theorem integrity_four_outcomes (n : Nat) (ks : List String) (p : Option Json)
    (hn : n ≠ 0) :
    checkFile .missing = .ok .missing ∧
    checkFile (.present 0 p) = .ok .empty ∧
    checkFile (.present n none) = .ok .invalidJson ∧
    checkFile (.present n (some (.obj ks))) = .ok (.valid ks) := by
  refine ⟨rfl, rfl, ?_, ?_⟩ <;> simp [checkFile, hn]

theorem integrity_four_outcomes_witness :
    checkFile .missing = .ok .missing ∧
    checkFile (.present 0 (some .arr)) = .ok .empty ∧
    checkFile (.present 9 none) = .ok .invalidJson ∧
    checkFile (.present 9 (some (.obj ["token"]))) = .ok (.valid ["token"]) :=
  integrity_four_outcomes 9 ["token"] (some .arr) (by decide)

/-- C10: the phone pattern is not anchored to digit boundaries: any text
containing `05`, a digit, an optional hyphen and at least seven further
digits yields a match, even when the surrounding digit run is longer than
a valid 10-digit number: `"052-12345678"` gives the truncated
`"052-1234567"` and `"10521234567"` matches from its second
character. -/
theorem phone_pattern_unanchored :
    extract_phone_number "052-12345678" = some "052-1234567" ∧
    extract_phone_number "10521234567" = some "0521234567" ∧
    ∀ (t : String) (pre hy ds post : List Char) (d : Char),
      t.data = pre ++ ('0' :: '5' :: d :: (hy ++ (ds ++ post))) →
      d.isDigit = true → (hy = [] ∨ hy = ['-']) →
      ds.length = 7 → ds.all Char.isDigit = true →
      (extract_phone_number t).isSome = true := by
  refine ⟨by decide, by decide, ?_⟩
  intro t pre hy ds post d hdata hd hhy hlen hdig
  have hne : ¬ (t = "") := by
    intro h'
    rw [h'] at hdata
    have h0 : ([] : List Char) = pre ++ ('0' :: '5' :: d :: (hy ++ (ds ++ post))) := hdata
    have h1 := congrArg List.length h0
    simp only [List.length_nil, List.length_append, List.length_cons] at h1
    omega
  unfold extract_phone_number
  rw [if_neg hne, Option.isSome_map', hdata]
  have hm := matchPhoneAt_parts_isSome post hd hhy hlen hdig
  obtain ⟨m, hmm⟩ := Option.isSome_iff_exists.mp hm
  exact searchPhone_isSome_of_suffix hmm

theorem phone_pattern_unanchored_witness :
    (extract_phone_number "x052-1234567").isSome = true :=
  phone_pattern_unanchored.2.2 "x052-1234567" ['x'] ['-'] "1234567".data [] '2'
    (by decide) (by decide) (Or.inr rfl) (by decide) (by decide)
